import Mathlib

/-!
A formal model of slackscan (src/main.c): the slack-space calculator, the
inode-walk accounting loop of `scan_device`, the single-file path of
`scan_file`, and the driver-call structure of both scanners, together with
theorems about their behaviour.

Machine arithmetic: the program is built for a 64-bit target, so `size_t`
and `blk64_t` are 64-bit unsigned integers (modulus `U64`) and C `unsigned`
is 32-bit (modulus `U32`).  All values are modelled as `Nat` with explicit
reductions where the C code truncates or wraps.
-/

namespace Slackscan

/-- Modulus of C `unsigned int` arithmetic: the declared type of `slack` in
`process_inode` (src/main.c line 99) and that function's return type. -/
def U32 : Nat := 4294967296

/-- Modulus of C `size_t` / `blk64_t` arithmetic (64-bit build), used by all
counters of src/main.c. -/
def U64 : Nat := 18446744073709551616

/-- `calc_slack` (src/main.c lines 61-75).  `blksize` and `fsize` are
`size_t`, `n_blocks` is `blk64_t`; the product `n_blocks * blksize` is
computed in 64-bit unsigned arithmetic and therefore wraps modulo `U64`.
The guarded subtractions never underflow, so plain `Nat` subtraction is
exact for them. -/
def calc_slack (blksize n_blocks fsize : Nat) : Nat :=
  if n_blocks ≠ 0 then
    if (n_blocks * blksize) % U64 ≥ fsize then (n_blocks * blksize) % U64 - fsize else 0
  else
    if blksize ≥ fsize then blksize - fsize else 0

/-- Reference definition written from the spec's words (spec §4.1 and §8),
for comparison with `calc_slack`: if `allocatedBlocks` is nonzero,
`slack = max(0, allocatedBlocks * blockSize − logicalSize)`, otherwise
`slack = max(0, blockSize − logicalSize)`, over unbounded integers. -/
def slack_spec (b n s : Nat) : Int :=
  if 0 < n then max 0 ((n : Int) * (b : Int) - (s : Int))
  else max 0 ((b : Int) - (s : Int))

/-- Driver-supplied metadata of one inode as consumed by the core:
the directory classification `LINUX_S_ISDIR(inode.i_mode)` (line 139), the
logical size `EXT2_I_SIZE(inode)` (lines 97/143, a 64-bit value) and the
allocated data-block count `ext2fs_inode_data_blocks2(fs, inode)`
(lines 98/144, a `blk64_t`). -/
structure Inode where
  isDir : Bool
  size : Nat
  blocks : Nat
  deriving DecidableEq

/-- One result of `ext2fs_get_next_inode(scanner, &ino, &inode)`
(src/main.c line 137): the returned error code and the values stored into
`ino` and `inode`.  A scan's driver behaviour is a list of these. -/
structure FetchStep where
  err : Nat
  ino : Nat
  inode : Inode
  deriving DecidableEq

/-- `process_inode` (src/main.c lines 89-111).  Computes the inode's slack
via `calc_slack(fs->blocksize, n_blocks, size)` and truncates it to C
`unsigned` (modulo `U32`): `const unsigned slack = ...` at line 99, returned
at line 110.  When `be_verbose` is set it resolves a pathname through
`ext2fs_get_pathname(fs, dir, ino, &name)` whose error code is discarded
(line 102); on a failed lookup the `name` buffer keeps its previous,
indeterminate content, modelled by the `junk` parameter.  The second
component is the name printed at line 103 (`none` when not verbose). -/
def process_inode (blocksize : Nat) (resolve : Nat → Nat → Option String)
    (junk : String) (inode : Inode) (dir ino : Nat) (be_verbose : Bool) :
    Nat × Option String :=
  let size := inode.size
  let n_blocks := inode.blocks
  let slack := calc_slack blocksize n_blocks size % U32
  if be_verbose then (slack, some ((resolve dir ino).getD junk)) else (slack, none)

/-- Per-inode record of one iteration of the scan loop: the inode id, the
directory-tracking id passed to `process_inode` for path resolution, the
name resolved for the verbose output (when verbose), and the quantities
folded into the running totals at src/main.c lines 142-145. -/
structure SlackRecord where
  ino : Nat
  dir : Nat
  name : Option String
  blocks : Nat
  size : Nat
  slack : Nat
  deriving DecidableEq

/-- The four accumulators of `scan_device` (src/main.c lines 122-123),
all 64-bit unsigned: `n_inodes`, `n_blocks`, `n_bytes`, `total_slack`. -/
structure ScanTotals where
  n_inodes : Nat
  n_blocks : Nat
  n_bytes : Nat
  total_slack : Nat
  deriving DecidableEq

/-- The zeroed accumulators of src/main.c line 135. -/
def zeroTotals : ScanTotals := ⟨0, 0, 0, 0⟩

/-- All four accumulator fields in 64-bit range. -/
def ScanTotals.Reduced (t : ScanTotals) : Prop :=
  t.n_inodes < U64 ∧ t.n_blocks < U64 ∧ t.n_bytes < U64 ∧ t.total_slack < U64

/-- One aggregation step, exactly the four updates of src/main.c
lines 142-145 in 64-bit arithmetic: `total_slack += slack`,
`n_bytes += size`, `n_blocks += blocks`, `++n_inodes`. -/
def fold_record (t : ScanTotals) (r : SlackRecord) : ScanTotals :=
  ⟨(t.n_inodes + 1) % U64,
   (t.n_blocks + r.blocks) % U64,
   (t.n_bytes + r.size) % U64,
   (t.total_slack + r.slack) % U64⟩

/-- Aggregation as a fold of the record sequence into `ScanTotals`
(spec §4.4). -/
def fold_records (rs : List SlackRecord) (t : ScanTotals) : ScanTotals :=
  rs.foldl fold_record t

/-- How the scan loop of src/main.c lines 137-146 ended: the sentinel inode
id 0, or a nonzero error code from `ext2fs_get_next_inode`. -/
inductive ScanExit where
  | sentinel
  | driverError (e : Nat)
  deriving DecidableEq

/-- Result of the scan loop: one record per processed inode, the final
accumulators, the final directory-tracking id, the number of
`ext2fs_get_next_inode` calls made, and how the loop ended (`none` only
when the modelled driver trace runs out, which a real driver never does). -/
structure LoopResult where
  records : List SlackRecord
  totals : ScanTotals
  dirFinal : Nat
  fetches : Nat
  exit : Option ScanExit
  deriving DecidableEq

/-- The inode-walk loop of `scan_device` (src/main.c lines 137-146).  Each
list element is the outcome of the next `ext2fs_get_next_inode` call.  The
loop stops on a nonzero error code or on the sentinel `ino == 0`; otherwise
a directory inode first overwrites the tracking id `dir` (lines 139-140),
then `process_inode` computes the (truncated) slack with the current `dir`
(line 142) and the four accumulators are updated (lines 142-145).  The
`dir` argument is the current value of the local variable `dir`, which the
source never initializes before the loop. -/
def scan_loop (blocksize : Nat) (resolve : Nat → Nat → Option String)
    (junk : String) (verbose : Bool) :
    List FetchStep → Nat → ScanTotals → LoopResult
  | [], dir, t => ⟨[], t, dir, 0, none⟩
  | step :: rest, dir, t =>
    if step.err ≠ 0 then
      ⟨[], t, dir, 1, some (ScanExit.driverError step.err)⟩
    else if step.ino = 0 then
      ⟨[], t, dir, 1, some ScanExit.sentinel⟩
    else
      let dir' := if step.inode.isDir then step.ino else dir
      let pr := process_inode blocksize resolve junk step.inode dir' step.ino verbose
      let r : SlackRecord := ⟨step.ino, dir', pr.2, step.inode.blocks, step.inode.size, pr.1⟩
      let t' : ScanTotals :=
        ⟨(t.n_inodes + 1) % U64,
         (t.n_blocks + step.inode.blocks) % U64,
         (t.n_bytes + step.inode.size) % U64,
         (t.total_slack + pr.1) % U64⟩
      let res := scan_loop blocksize resolve junk verbose rest dir' t'
      ⟨r :: res.records, res.totals, res.dirFinal, res.fetches + 1, res.exit⟩

/-- Lines 135-146 of src/main.c: the four counters are zeroed, the scan
cursor is opened and the loop runs.  `dir0` is the indeterminate initial
value of the local `dir`, which is declared at line 120 and never
initialized (line 135 zeroes only the four counters). -/
def scan_device_loop (blocksize : Nat) (resolve : Nat → Nat → Option String)
    (junk : String) (verbose : Bool) (dir0 : Nat) (trace : List FetchStep) :
    LoopResult :=
  scan_loop blocksize resolve junk verbose trace dir0 zeroTotals

/-- Driver entry points invoked by the scanners, in the order the source
calls them, for stating resource-release properties. -/
inductive DriverCall where
  | openVolume
  | openScan
  | nextInode
  | closeScan
  | closeVolume
  | fileOpen
  deriving DecidableEq

/-- Observable outcome of one `scan_device` invocation: the verbose records,
the summary handed to `print_summary` (none if never reached), the error
code reported to the user via `fprintf` (if any), the process exit status
of a `-d`-only invocation, the driver calls made in order, and how the scan
loop ended. -/
structure DeviceRun where
  records : List SlackRecord
  summary : Option ScanTotals
  errorReported : Option Nat
  exitCode : Nat
  calls : List DriverCall
  exit : Option ScanExit
  deriving DecidableEq

/-- `scan_device` (src/main.c lines 116-153) together with the process exit
status of an invocation that scans only a device (`main`, lines 299-304:
`return 0`).  `openErr` is the result of `ext2fs_open` (line 128): nonzero
prints an error and calls `exit(EXIT_FAILURE)`.  Otherwise the loop runs to
its end; the source never examines `err` after the loop and prints no
message for a failed `ext2fs_get_next_inode`, so on every path past the
open the reported error is `none`, the summary is printed (line 152) and
the process exit status is 0.  The driver calls mirror lines 128, 136, 137,
149 and 150 in order. -/
def scan_device_run (blocksize : Nat) (resolve : Nat → Nat → Option String)
    (junk : String) (verbose : Bool) (openErr : Nat) (dir0 : Nat)
    (trace : List FetchStep) : DeviceRun :=
  if openErr ≠ 0 then
    ⟨[], none, some openErr, 1, [DriverCall.openVolume], none⟩
  else
    let res := scan_device_loop blocksize resolve junk verbose dir0 trace
    ⟨res.records, some res.totals, none, 0,
     [DriverCall.openVolume, DriverCall.openScan]
       ++ List.replicate res.fetches DriverCall.nextInode
       ++ [DriverCall.closeScan, DriverCall.closeVolume],
     res.exit⟩

/-- Lines 240-244 of `scan_file` (src/main.c): the single-file totals.
`n_inodes` is fixed at 1 and `total_slack` is the full `size_t` result of
`calc_slack(EXT2_BLOCK_SIZE(fs->super), n_blocks, n_bytes)` with no
truncation (`EXT2_BLOCK_SIZE(fs->super)` equals `fs->blocksize`). -/
def scan_file_totals (blocksize : Nat) (inode : Inode) : ScanTotals :=
  ⟨1, inode.blocks, inode.size, calc_slack blocksize inode.blocks inode.size⟩

/-- Driver calls of `scan_file` (src/main.c lines 207-266) on each exit
path: a `stat` failure (line 219) exits before any driver call; an
`ext2fs_open` failure (line 227) exits having acquired nothing; an
`ext2fs_file_open` failure (line 233) calls `exit(EXIT_FAILURE)` without
`ext2fs_close`, so the filesystem handle is not released on that path; on
success the handle is closed (line 264) after the summary is printed. -/
def scan_file_calls (statOk : Bool) (openErr fileOpenErr : Nat) :
    List DriverCall :=
  if ¬ statOk then []
  else if openErr ≠ 0 then [DriverCall.openVolume]
  else if fileOpenErr ≠ 0 then [DriverCall.openVolume, DriverCall.fileOpen]
  else [DriverCall.openVolume, DriverCall.fileOpen, DriverCall.closeVolume]

/-- A driver path lookup that always fails, for concrete instantiations. -/
def noPath : Nat → Nat → Option String := fun _ _ => none

/-- A driver path lookup that always resolves to the same name, for
concrete instantiations. -/
def fixedPath (p : String) : Nat → Nat → Option String := fun _ _ => some p

/-! ## Helper lemmas -/

/-- The guarded C subtraction pattern of `calc_slack` equals the spec's
`max(0, x − s)` over the integers. -/
lemma ite_sub_cast (x s : Nat) :
    ((if x ≥ s then x - s else 0 : Nat) : Int) = max 0 ((x : Int) - (s : Int)) := by
  rcases le_or_lt s x with h | h
  · rw [if_pos h, max_eq_right (by omega : (0 : Int) ≤ (x : Int) - (s : Int))]
    omega
  · rw [if_neg (by omega : ¬ x ≥ s), max_eq_left (by omega : (x : Int) - (s : Int) ≤ 0)]
    omega

/-- The slack value computed inside `process_inode` does not depend on the
verbosity flag or on the path-resolution collaborator. -/
lemma process_inode_fst (blocksize : Nat) (resolve : Nat → Nat → Option String)
    (junk : String) (inode : Inode) (dir ino : Nat) (be_verbose : Bool) :
    (process_inode blocksize resolve junk inode dir ino be_verbose).1
      = calc_slack blocksize inode.blocks inode.size % U32 := by
  cases be_verbose <;> rfl

/-- The totals computed by the loop's interleaved `+=` updates equal the
a-posteriori fold of the emitted records over the initial accumulators. -/
lemma scan_loop_totals_eq_fold (bs : Nat) (resolve : Nat → Nat → Option String)
    (junk : String) (verbose : Bool) (trace : List FetchStep) :
    ∀ (dir : Nat) (t : ScanTotals),
      (scan_loop bs resolve junk verbose trace dir t).totals
        = fold_records (scan_loop bs resolve junk verbose trace dir t).records t := by
  induction trace with
  | nil => intro dir t; rfl
  | cons step rest ih =>
    intro dir t
    by_cases h1 : step.err = 0
    · by_cases h2 : step.ino = 0
      · simp [scan_loop, h1, h2, fold_records]
      · simp only [scan_loop, h1, h2, ne_eq, not_true_eq_false, if_false,
          if_neg (by simp [h2] : ¬ step.ino = 0), not_false_eq_true, ite_true]
        rw [fold_records, List.foldl_cons]
        exact ih _ _
    · simp [scan_loop, h1, fold_records]

/-- A fold step keeps all accumulators in 64-bit range. -/
lemma fold_record_reduced (t : ScanTotals) (r : SlackRecord) :
    (fold_record t r).Reduced := by
  refine ⟨?_, ?_, ?_, ?_⟩ <;> (simp only [fold_record, U64]; omega)

/-- Closed form of the fold from in-range accumulators: each field is the
initial value plus the corresponding componentwise sum, modulo `2^64`. -/
lemma fold_records_sum (rs : List SlackRecord) :
    ∀ (t : ScanTotals), t.Reduced →
      fold_records rs t =
        ⟨(t.n_inodes + rs.length) % U64,
         (t.n_blocks + (rs.map SlackRecord.blocks).sum) % U64,
         (t.n_bytes + (rs.map SlackRecord.size).sum) % U64,
         (t.total_slack + (rs.map SlackRecord.slack).sum) % U64⟩ := by
  induction rs with
  | nil =>
    intro t ht
    obtain ⟨h1, h2, h3, h4⟩ := ht
    simp [fold_records, Nat.mod_eq_of_lt h1, Nat.mod_eq_of_lt h2,
      Nat.mod_eq_of_lt h3, Nat.mod_eq_of_lt h4]
  | cons r rs ih =>
    intro t ht
    rw [fold_records, List.foldl_cons]
    rw [show List.foldl fold_record (fold_record t r) rs
          = fold_records rs (fold_record t r) from rfl]
    rw [ih (fold_record t r) (fold_record_reduced t r)]
    simp only [fold_record, List.length_cons, List.map_cons, List.sum_cons]
    simp only [ScanTotals.mk.injEq]
    refine ⟨?_, ?_, ?_, ?_⟩ <;> (rw [Nat.mod_add_mod]; congr 1; omega)

/-- The records emitted by the loop do not depend on the incoming
accumulator values. -/
lemma scan_loop_records_of_totals (bs : Nat) (resolve : Nat → Nat → Option String)
    (junk : String) (verbose : Bool) (trace : List FetchStep) :
    ∀ (dir : Nat) (t t' : ScanTotals),
      (scan_loop bs resolve junk verbose trace dir t).records
        = (scan_loop bs resolve junk verbose trace dir t').records := by
  induction trace with
  | nil => intro dir t t'; rfl
  | cons step rest ih =>
    intro dir t t'
    by_cases h1 : step.err = 0
    · by_cases h2 : step.ino = 0
      · simp [scan_loop, h1, h2]
      · simp only [scan_loop, h1, h2, ne_eq, not_true_eq_false, if_false,
          not_false_eq_true, ite_true, if_neg (by simp [h2] : ¬ step.ino = 0),
          List.cons.injEq, true_and]
        exact ih _ _ _
    · simp [scan_loop, h1]

/-- Totals, final tracking id, fetch count and exit condition of the loop
do not depend on the path-resolution collaborator, the stale name buffer or
the verbosity flag (these only influence the printed names). -/
lemma scan_loop_core_indep (bs : Nat) (res1 res2 : Nat → Nat → Option String)
    (j1 j2 : String) (v1 v2 : Bool) (trace : List FetchStep) :
    ∀ (dir : Nat) (t : ScanTotals),
      (scan_loop bs res1 j1 v1 trace dir t).totals
          = (scan_loop bs res2 j2 v2 trace dir t).totals
        ∧ (scan_loop bs res1 j1 v1 trace dir t).dirFinal
          = (scan_loop bs res2 j2 v2 trace dir t).dirFinal
        ∧ (scan_loop bs res1 j1 v1 trace dir t).fetches
          = (scan_loop bs res2 j2 v2 trace dir t).fetches
        ∧ (scan_loop bs res1 j1 v1 trace dir t).exit
          = (scan_loop bs res2 j2 v2 trace dir t).exit := by
  induction trace with
  | nil => intro dir t; exact ⟨rfl, rfl, rfl, rfl⟩
  | cons step rest ih =>
    intro dir t
    by_cases h1 : step.err = 0
    · by_cases h2 : step.ino = 0
      · simp [scan_loop, h1, h2]
      · simp only [scan_loop, h1, h2, ne_eq, not_true_eq_false, if_false,
          not_false_eq_true, ite_true, if_neg (by simp [h2] : ¬ step.ino = 0)]
        rw [process_inode_fst, process_inode_fst]
        obtain ⟨ha, hb, hc, hd⟩ := ih (if step.inode.isDir then step.ino else dir)
          ⟨(t.n_inodes + 1) % U64,
           (t.n_blocks + step.inode.blocks) % U64,
           (t.n_bytes + step.inode.size) % U64,
           (t.total_slack + calc_slack bs step.inode.blocks step.inode.size % U32) % U64⟩
        exact ⟨ha, hb, by simp [hc], hd⟩
    · simp [scan_loop, h1]

/-- Every record emitted by the loop carries the `process_inode` slack of
its own metadata: the `calc_slack` value truncated modulo `2^32`. -/
lemma scan_loop_record_slack (bs : Nat) (resolve : Nat → Nat → Option String)
    (junk : String) (verbose : Bool) (trace : List FetchStep) :
    ∀ (dir : Nat) (t : ScanTotals),
      ∀ r ∈ (scan_loop bs resolve junk verbose trace dir t).records,
        r.slack = calc_slack bs r.blocks r.size % U32 := by
  induction trace with
  | nil => intro dir t r hr; simp [scan_loop] at hr
  | cons step rest ih =>
    intro dir t r hr
    by_cases h1 : step.err = 0
    · by_cases h2 : step.ino = 0
      · simp [scan_loop, h1, h2] at hr
      · simp only [scan_loop, h1, h2, ne_eq, not_true_eq_false, if_false,
          not_false_eq_true, ite_true, if_neg (by simp [h2] : ¬ step.ino = 0),
          List.mem_cons] at hr
        rcases hr with hr | hr
        · subst hr; simp [process_inode_fst]
        · exact ih _ _ r hr
    · simp [scan_loop, h1] at hr

/-- If the driver returns a nonzero error code right after a prefix of
ordinary inodes, the loop stops there: the records, totals and final
tracking id are those of the prefix alone, one extra fetch was made, and
the loop reports that driver error. -/
lemma scan_loop_stops_at_error (bs : Nat) (resolve : Nat → Nat → Option String)
    (junk : String) (verbose : Bool) :
    ∀ (pre : List FetchStep) (step : FetchStep) (post : List FetchStep)
      (dir : Nat) (t : ScanTotals),
      (∀ x ∈ pre, x.err = 0 ∧ x.ino ≠ 0) → step.err ≠ 0 →
      scan_loop bs resolve junk verbose (pre ++ step :: post) dir t
        = ⟨(scan_loop bs resolve junk verbose pre dir t).records,
           (scan_loop bs resolve junk verbose pre dir t).totals,
           (scan_loop bs resolve junk verbose pre dir t).dirFinal,
           pre.length + 1,
           some (ScanExit.driverError step.err)⟩ := by
  intro pre
  induction pre with
  | nil =>
    intro step post dir t _ hstep
    simp [scan_loop, hstep]
  | cons s pre ih =>
    intro step post dir t hall hstep
    obtain ⟨hs1, hs2⟩ := hall s (List.mem_cons_self s pre)
    have hall' : ∀ x ∈ pre, x.err = 0 ∧ x.ino ≠ 0 :=
      fun x hx => hall x (List.mem_cons_of_mem s hx)
    simp only [List.cons_append, scan_loop, hs1, hs2, ne_eq, not_true_eq_false,
      if_false, not_false_eq_true, ite_true,
      if_neg (by simp [hs2] : ¬ s.ino = 0), List.append_eq]
    rw [ih step post _ _ hall' hstep]
    simp [List.length_cons]

/-- Truncating each summand modulo `2^32` cannot increase a sum. -/
lemma sum_map_mod_le (l : List SlackRecord) (f : SlackRecord → Nat) :
    (l.map fun r => f r % U32).sum ≤ (l.map f).sum := by
  induction l with
  | nil => simp
  | cons a l ih =>
    simp only [List.map_cons, List.sum_cons]
    exact Nat.add_le_add (Nat.mod_le _ _) ih

/-- If some summand is at least `2^32`, truncating each summand modulo
`2^32` strictly decreases the sum. -/
lemma sum_map_mod_lt (l : List SlackRecord) (f : SlackRecord → Nat)
    (h : ∃ r ∈ l, U32 ≤ f r) :
    (l.map fun r => f r % U32).sum < (l.map f).sum := by
  induction l with
  | nil => simp at h
  | cons a l ih =>
    simp only [List.map_cons, List.sum_cons]
    rcases h with ⟨r, hr, hbig⟩
    rcases List.mem_cons.mp hr with hr | hr
    · subst hr
      have h1 : f r % U32 < f r := by
        have := Nat.mod_lt (f r) (by simp [U32] : 0 < U32)
        omega
      exact Nat.add_lt_add_of_lt_of_le h1 (sum_map_mod_le l f)
    · exact Nat.add_lt_add_of_le_of_lt (Nat.mod_le _ _) (ih ⟨r, hr, hbig⟩)

/-! ## C1: the slack calculator against the spec's reference definition -/

/-- C1 (amended): for all non-negative inputs whose product `n * b` stays
below `2^64` (no 64-bit overflow), `calc_slack b n s` equals the spec's
reference `slack_spec b n s`, and the result is never negative. -/
theorem calc_slack_matches_reference (b n s : Nat) :
    0 ≤ (calc_slack b n s : Int) ∧
    (n * b < U64 → (calc_slack b n s : Int) = slack_spec b n s) := by
  refine ⟨by omega, fun h => ?_⟩
  unfold calc_slack slack_spec
  rcases Nat.eq_zero_or_pos n with hn | hn
  · subst hn
    rw [if_neg (by omega : ¬ (0 : Nat) ≠ 0), if_neg (by omega : ¬ (0 : Nat) < 0)]
    exact ite_sub_cast b s
  · rw [if_pos (by omega : n ≠ 0), if_pos hn, Nat.mod_eq_of_lt h,
      ite_sub_cast (n * b) s]
    push_cast
    ring_nf

/-- Witness for C1 at the spec's own example `b = 4096, n = 3, s = 9000`
(slack `3*4096 - 9000 = 3288`). -/
theorem calc_slack_matches_reference_witness :
    0 ≤ (calc_slack 4096 3 9000 : Int) ∧
    (3 * 4096 < U64 ∧ (calc_slack 4096 3 9000 : Int) = slack_spec 4096 3 9000) :=
  ⟨(calc_slack_matches_reference 4096 3 9000).1, by decide,
   (calc_slack_matches_reference 4096 3 9000).2 (by decide)⟩

/-- Counterexample to C1 as stated: at `b = 2^32, n = 2^32, s = 1` the
product wraps to 0 modulo `2^64`, so the code returns 0 while the reference
definition gives `2^64 - 1`. -/
theorem calc_slack_overflow_cex :
    ¬ ((calc_slack 4294967296 4294967296 1 : Int) = slack_spec 4294967296 4294967296 1) := by
  decide

/-! ## C2: the scan totals are the fold of the per-inode records -/

/-- C2 (amended): for every volume scan, the final `ScanTotals` equals the
fold of the per-inode records into the zeroed accumulators, i.e. (with
64-bit accumulators) inode count `= k mod 2^64`, block count `=` (sum of
allocated-block counts) `mod 2^64`, byte count `=` (sum of logical sizes)
`mod 2^64`, slack count `=` (sum of per-inode slack values) `mod 2^64`;
these are the exact sums whenever each stays below `2^64`; and a scan whose
very first cursor call returns the terminator id 0 yields
`ScanTotals 0 0 0 0` and no records. -/
theorem scan_totals_fold (bs : Nat) (resolve : Nat → Nat → Option String)
    (junk : String) (verbose : Bool) (dir0 : Nat) (trace : List FetchStep) :
    ((scan_device_loop bs resolve junk verbose dir0 trace).totals
        = fold_records (scan_device_loop bs resolve junk verbose dir0 trace).records zeroTotals)
    ∧ ((scan_device_loop bs resolve junk verbose dir0 trace).totals
        = ⟨(scan_device_loop bs resolve junk verbose dir0 trace).records.length % U64,
           ((scan_device_loop bs resolve junk verbose dir0 trace).records.map SlackRecord.blocks).sum % U64,
           ((scan_device_loop bs resolve junk verbose dir0 trace).records.map SlackRecord.size).sum % U64,
           ((scan_device_loop bs resolve junk verbose dir0 trace).records.map SlackRecord.slack).sum % U64⟩)
    ∧ ((scan_device_loop bs resolve junk verbose dir0 trace).records.length < U64 →
       ((scan_device_loop bs resolve junk verbose dir0 trace).records.map SlackRecord.blocks).sum < U64 →
       ((scan_device_loop bs resolve junk verbose dir0 trace).records.map SlackRecord.size).sum < U64 →
       ((scan_device_loop bs resolve junk verbose dir0 trace).records.map SlackRecord.slack).sum < U64 →
       (scan_device_loop bs resolve junk verbose dir0 trace).totals
         = ⟨(scan_device_loop bs resolve junk verbose dir0 trace).records.length,
            ((scan_device_loop bs resolve junk verbose dir0 trace).records.map SlackRecord.blocks).sum,
            ((scan_device_loop bs resolve junk verbose dir0 trace).records.map SlackRecord.size).sum,
            ((scan_device_loop bs resolve junk verbose dir0 trace).records.map SlackRecord.slack).sum⟩)
    ∧ (∀ (m : Inode) (rest : List FetchStep),
        scan_device_loop bs resolve junk verbose dir0 (⟨0, 0, m⟩ :: rest)
          = ⟨[], zeroTotals, dir0, 1, some ScanExit.sentinel⟩) := by
  have hzero : zeroTotals.Reduced := by
    refine ⟨?_, ?_, ?_, ?_⟩ <;> simp [zeroTotals, U64]
  have h1 : (scan_device_loop bs resolve junk verbose dir0 trace).totals
      = fold_records (scan_device_loop bs resolve junk verbose dir0 trace).records zeroTotals :=
    scan_loop_totals_eq_fold bs resolve junk verbose trace dir0 zeroTotals
  have h2 := fold_records_sum
    (scan_device_loop bs resolve junk verbose dir0 trace).records zeroTotals hzero
  refine ⟨h1, ?_, ?_, ?_⟩
  · rw [h1, h2]; simp [zeroTotals]
  · intro ha hb hc hd
    rw [h1, h2]
    simp only [zeroTotals, Nat.zero_add]
    rw [Nat.mod_eq_of_lt ha, Nat.mod_eq_of_lt hb, Nat.mod_eq_of_lt hc,
      Nat.mod_eq_of_lt hd]
  · intro m rest; rfl

/-- Witness for C2 at a two-step trace: one inode with 1 block and
100 bytes, then the terminator; the totals are exactly
`1 inode, 1 block, 100 bytes, 3996 slack`. -/
theorem scan_totals_fold_witness :
    ((scan_device_loop 4096 noPath "" false 0
        [⟨0, 11, ⟨false, 100, 1⟩⟩, ⟨0, 0, ⟨false, 0, 0⟩⟩]).records.length < U64
      ∧ ((scan_device_loop 4096 noPath "" false 0
        [⟨0, 11, ⟨false, 100, 1⟩⟩, ⟨0, 0, ⟨false, 0, 0⟩⟩]).records.map SlackRecord.blocks).sum < U64
      ∧ ((scan_device_loop 4096 noPath "" false 0
        [⟨0, 11, ⟨false, 100, 1⟩⟩, ⟨0, 0, ⟨false, 0, 0⟩⟩]).records.map SlackRecord.size).sum < U64
      ∧ ((scan_device_loop 4096 noPath "" false 0
        [⟨0, 11, ⟨false, 100, 1⟩⟩, ⟨0, 0, ⟨false, 0, 0⟩⟩]).records.map SlackRecord.slack).sum < U64)
    ∧ (scan_device_loop 4096 noPath "" false 0
        [⟨0, 11, ⟨false, 100, 1⟩⟩, ⟨0, 0, ⟨false, 0, 0⟩⟩]).totals
      = ⟨(scan_device_loop 4096 noPath "" false 0
            [⟨0, 11, ⟨false, 100, 1⟩⟩, ⟨0, 0, ⟨false, 0, 0⟩⟩]).records.length,
         ((scan_device_loop 4096 noPath "" false 0
            [⟨0, 11, ⟨false, 100, 1⟩⟩, ⟨0, 0, ⟨false, 0, 0⟩⟩]).records.map SlackRecord.blocks).sum,
         ((scan_device_loop 4096 noPath "" false 0
            [⟨0, 11, ⟨false, 100, 1⟩⟩, ⟨0, 0, ⟨false, 0, 0⟩⟩]).records.map SlackRecord.size).sum,
         ((scan_device_loop 4096 noPath "" false 0
            [⟨0, 11, ⟨false, 100, 1⟩⟩, ⟨0, 0, ⟨false, 0, 0⟩⟩]).records.map SlackRecord.slack).sum⟩ :=
  ⟨⟨by decide, by decide, by decide, by decide⟩,
   (scan_totals_fold 4096 noPath "" false 0
      [⟨0, 11, ⟨false, 100, 1⟩⟩, ⟨0, 0, ⟨false, 0, 0⟩⟩]).2.2.1
     (by decide) (by decide) (by decide) (by decide)⟩

/-- Counterexample to C2's exact-sum reading: two inodes of logical size
`2^63` each make the byte accumulator wrap to 0 while the true sum of
logical sizes is `2^64`. -/
theorem scan_totals_exact_sum_cex :
    ¬ ((scan_device_loop 4096 noPath "" false 0
          [⟨0, 11, ⟨false, 9223372036854775808, 1⟩⟩,
           ⟨0, 12, ⟨false, 9223372036854775808, 1⟩⟩,
           ⟨0, 0, ⟨false, 0, 0⟩⟩]).totals.n_bytes
        = ((scan_device_loop 4096 noPath "" false 0
          [⟨0, 11, ⟨false, 9223372036854775808, 1⟩⟩,
           ⟨0, 12, ⟨false, 9223372036854775808, 1⟩⟩,
           ⟨0, 0, ⟨false, 0, 0⟩⟩]).records.map SlackRecord.size).sum) := by
  decide

/-! ## C3: a driver error mid-scan ends the loop, but is silently swallowed -/

/-- C3 (amended): when the driver returns a nonzero error code while
fetching the next inode after a prefix of ordinary inodes, the scan loop
terminates immediately (the records and partial totals are exactly those of
the prefix, and the partial totals are still handed to the Reporter in the
summary line), but — contrary to the claim as stated — no error is reported
to the user for that failure and the process exit status of the invocation
is 0 (success), because src/main.c never examines `err` after the loop. -/
theorem scan_error_partial_totals (bs : Nat) (resolve : Nat → Nat → Option String)
    (junk : String) (verbose : Bool) (dir0 : Nat) (pre : List FetchStep)
    (step : FetchStep) (post : List FetchStep)
    (hpre : ∀ x ∈ pre, x.err = 0 ∧ x.ino ≠ 0) (hstep : step.err ≠ 0) :
    (scan_device_run bs resolve junk verbose 0 dir0 (pre ++ step :: post)).records
        = (scan_device_loop bs resolve junk verbose dir0 pre).records
    ∧ (scan_device_run bs resolve junk verbose 0 dir0 (pre ++ step :: post)).summary
        = some (scan_device_loop bs resolve junk verbose dir0 pre).totals
    ∧ (scan_device_run bs resolve junk verbose 0 dir0 (pre ++ step :: post)).exit
        = some (ScanExit.driverError step.err)
    ∧ (scan_device_run bs resolve junk verbose 0 dir0 (pre ++ step :: post)).errorReported
        = none
    ∧ (scan_device_run bs resolve junk verbose 0 dir0 (pre ++ step :: post)).exitCode
        = 0 := by
  have hstop := scan_loop_stops_at_error bs resolve junk verbose pre step post
    dir0 zeroTotals hpre hstep
  simp only [scan_device_run, ne_eq, not_true_eq_false, if_false,
    not_false_eq_true, ite_true, if_neg (by omega : ¬ (0 : Nat) ≠ 0),
    scan_device_loop, hstop]
  refine ⟨?_, ?_, ?_, ?_, ?_⟩ <;> trivial

/-- Witness for C3's amended statement: a one-inode prefix followed by a
driver error with code 5. -/
theorem scan_error_partial_totals_witness :
    (∀ x ∈ ([⟨0, 11, ⟨false, 100, 1⟩⟩] : List FetchStep), x.err = 0 ∧ x.ino ≠ 0)
    ∧ ((⟨5, 0, ⟨false, 0, 0⟩⟩ : FetchStep).err ≠ 0)
    ∧ ((scan_device_run 4096 noPath "" false 0 0
          ([⟨0, 11, ⟨false, 100, 1⟩⟩] ++ ⟨5, 0, ⟨false, 0, 0⟩⟩ :: [])).records
        = (scan_device_loop 4096 noPath "" false 0 [⟨0, 11, ⟨false, 100, 1⟩⟩]).records
      ∧ (scan_device_run 4096 noPath "" false 0 0
          ([⟨0, 11, ⟨false, 100, 1⟩⟩] ++ ⟨5, 0, ⟨false, 0, 0⟩⟩ :: [])).summary
        = some (scan_device_loop 4096 noPath "" false 0 [⟨0, 11, ⟨false, 100, 1⟩⟩]).totals
      ∧ (scan_device_run 4096 noPath "" false 0 0
          ([⟨0, 11, ⟨false, 100, 1⟩⟩] ++ ⟨5, 0, ⟨false, 0, 0⟩⟩ :: [])).exit
        = some (ScanExit.driverError 5)
      ∧ (scan_device_run 4096 noPath "" false 0 0
          ([⟨0, 11, ⟨false, 100, 1⟩⟩] ++ ⟨5, 0, ⟨false, 0, 0⟩⟩ :: [])).errorReported
        = none
      ∧ (scan_device_run 4096 noPath "" false 0 0
          ([⟨0, 11, ⟨false, 100, 1⟩⟩] ++ ⟨5, 0, ⟨false, 0, 0⟩⟩ :: [])).exitCode
        = 0) :=
  ⟨by decide, by decide,
   scan_error_partial_totals 4096 noPath "" false 0
     [⟨0, 11, ⟨false, 100, 1⟩⟩] ⟨5, 0, ⟨false, 0, 0⟩⟩ []
     (by decide) (by decide)⟩

/-- Counterexample to C3 as stated: a scan whose first fetch fails with
driver error 5 reports no error to the user and the invocation exits with
status 0 (success), while the claim requires the error to be reported and
the process to terminate with a failure status. -/
theorem scan_error_silent_cex :
    (scan_device_run 4096 noPath "" false 0 0 [⟨5, 0, ⟨false, 0, 0⟩⟩]).exit
        = some (ScanExit.driverError 5)
    ∧ (scan_device_run 4096 noPath "" false 0 0 [⟨5, 0, ⟨false, 0, 0⟩⟩]).errorReported
        = none
    ∧ (scan_device_run 4096 noPath "" false 0 0 [⟨5, 0, ⟨false, 0, 0⟩⟩]).exitCode
        = 0
    ∧ (scan_device_run 4096 noPath "" false 0 0 [⟨5, 0, ⟨false, 0, 0⟩⟩]).summary
        = some zeroTotals := by
  decide

/-! ## C4: the directory-tracking id is never initialized -/

/-- C4 (observed code bug): the source zeroes only the four counters
(line 135) and never initializes the local `dir` (declared line 120), so
the record of an inode processed before the first directory inode carries
the indeterminate initial value of `dir` — here modelled as 7 — and not 0
as the claim states. -/
theorem uninitialized_dir_observed :
    ((scan_device_loop 4096 noPath "" false 7
        [⟨0, 11, ⟨false, 100, 1⟩⟩, ⟨0, 0, ⟨false, 0, 0⟩⟩]).records.map SlackRecord.dir
      = [7])
    ∧ ¬ ((scan_device_loop 4096 noPath "" false 7
        [⟨0, 11, ⟨false, 100, 1⟩⟩, ⟨0, 0, ⟨false, 0, 0⟩⟩]).records.map SlackRecord.dir
      = [0])
    ∧ (scan_device_loop 4096 noPath "" false 7
        [⟨0, 11, ⟨false, 100, 1⟩⟩, ⟨0, 0, ⟨false, 0, 0⟩⟩]).totals.n_inodes = 1 := by
  decide

/-! ## C5: a directory's own record uses the new tracking id, not the previous one -/

/-- C5 (amended): when a directory inode is fetched, the tracking id is
updated to that inode's id before its record is computed, so the
directory's own record is resolved against the NEW tracking id (its own
id), not the previous one; every subsequent inode is then scanned with the
new tracking id. -/
theorem dir_update_before_record (bs : Nat) (resolve : Nat → Nat → Option String)
    (junk : String) (verbose : Bool) (dir0 : Nat) (t : ScanTotals)
    (step : FetchStep) (rest : List FetchStep)
    (h0 : step.err = 0) (h1 : step.ino ≠ 0) (h2 : step.inode.isDir = true) :
    ((scan_loop bs resolve junk verbose (step :: rest) dir0 t).records.head?.map SlackRecord.dir
        = some step.ino)
    ∧ ((scan_loop bs resolve junk verbose (step :: rest) dir0 t).records.tail
        = (scan_loop bs resolve junk verbose rest step.ino zeroTotals).records) := by
  simp only [scan_loop, h0, h2, ne_eq, not_true_eq_false, if_false,
    not_false_eq_true, ite_true, if_neg (by simp [h1] : ¬ step.ino = 0),
    List.head?_cons, List.tail_cons, Option.map_some]
  exact ⟨rfl, scan_loop_records_of_totals bs resolve junk verbose rest step.ino _ _⟩

/-- Witness for C5's amended statement: a directory inode with id 5 arrives
while the tracking id is 3; its own record carries 5 and the following
non-directory inode is scanned with tracking id 5. -/
theorem dir_update_before_record_witness :
    ((⟨0, 5, ⟨true, 50, 1⟩⟩ : FetchStep).err = 0
      ∧ (⟨0, 5, ⟨true, 50, 1⟩⟩ : FetchStep).ino ≠ 0
      ∧ (⟨0, 5, ⟨true, 50, 1⟩⟩ : FetchStep).inode.isDir = true)
    ∧ ((scan_loop 4096 noPath "" false
          [⟨0, 5, ⟨true, 50, 1⟩⟩, ⟨0, 9, ⟨false, 10, 1⟩⟩] 3 zeroTotals).records.head?.map SlackRecord.dir
        = some 5
      ∧ (scan_loop 4096 noPath "" false
          [⟨0, 5, ⟨true, 50, 1⟩⟩, ⟨0, 9, ⟨false, 10, 1⟩⟩] 3 zeroTotals).records.tail
        = (scan_loop 4096 noPath "" false [⟨0, 9, ⟨false, 10, 1⟩⟩] 5 zeroTotals).records) :=
  ⟨⟨by decide, by decide, by decide⟩,
   dir_update_before_record 4096 noPath "" false 3 zeroTotals
     ⟨0, 5, ⟨true, 50, 1⟩⟩ [⟨0, 9, ⟨false, 10, 1⟩⟩]
     (by decide) (by decide) (by decide)⟩

/-- Counterexample to C5 as stated: with tracking id 3, a directory inode
with id 5 produces a record whose tracking id is 5 (its own id), not the
previous id 3 claimed for the directory's own slack record. -/
theorem dir_record_previous_id_cex :
    ((scan_device_loop 4096 noPath "" false 3
        [⟨0, 5, ⟨true, 50, 1⟩⟩, ⟨0, 9, ⟨false, 10, 1⟩⟩, ⟨0, 0, ⟨false, 0, 0⟩⟩]).records.map SlackRecord.dir
      = [5, 5])
    ∧ ¬ ((scan_device_loop 4096 noPath "" false 3
        [⟨0, 5, ⟨true, 50, 1⟩⟩, ⟨0, 9, ⟨false, 10, 1⟩⟩, ⟨0, 0, ⟨false, 0, 0⟩⟩]).records.map SlackRecord.dir
      = [3, 5]) := by
  decide

/-! ## C6: aggregation into ScanTotals is order-independent -/

/-- C6 (confirmed): folding any permutation of a finite sequence of
per-inode records into the same initial accumulators yields identical
`ScanTotals`, even though the records' path annotations may differ. -/
theorem fold_records_perm_invariant (t : ScanTotals) (rs1 rs2 : List SlackRecord)
    (h : rs1.Perm rs2) :
    fold_records rs1 t = fold_records rs2 t := by
  induction h generalizing t with
  | nil => rfl
  | cons x h ih =>
    rw [fold_records, List.foldl_cons, fold_records, List.foldl_cons]
    exact ih (fold_record t x)
  | swap x y l =>
    rw [fold_records, List.foldl_cons, List.foldl_cons,
      fold_records, List.foldl_cons, List.foldl_cons]
    have hcomm : fold_record (fold_record t y) x = fold_record (fold_record t x) y := by
      simp only [fold_record, ScanTotals.mk.injEq]
      refine ⟨?_, ?_, ?_, ?_⟩ <;>
        first
        | trivial
        | (rw [Nat.mod_add_mod, Nat.mod_add_mod]; congr 1; omega)
    rw [hcomm]
  | trans h1 h2 ih1 ih2 =>
    rw [ih1 t, ih2 t]

/-- Witness for C6: two records (with different path annotations) folded in
both orders give the same totals. -/
theorem fold_records_perm_invariant_witness :
    ([⟨11, 0, some "/a", 1, 100, 3996⟩, ⟨12, 0, none, 2, 200, 7992⟩]
        : List SlackRecord).Perm
      [⟨12, 0, none, 2, 200, 7992⟩, ⟨11, 0, some "/a", 1, 100, 3996⟩]
    ∧ fold_records [⟨11, 0, some "/a", 1, 100, 3996⟩, ⟨12, 0, none, 2, 200, 7992⟩] zeroTotals
      = fold_records [⟨12, 0, none, 2, 200, 7992⟩, ⟨11, 0, some "/a", 1, 100, 3996⟩] zeroTotals :=
  ⟨List.Perm.swap (⟨12, 0, none, 2, 200, 7992⟩ : SlackRecord)
     (⟨11, 0, some "/a", 1, 100, 3996⟩ : SlackRecord) [],
   fold_records_perm_invariant zeroTotals _ _
     (List.Perm.swap (⟨12, 0, none, 2, 200, 7992⟩ : SlackRecord)
       (⟨11, 0, some "/a", 1, 100, 3996⟩ : SlackRecord) [])⟩

/-! ## C7: single-file scanner versus volume scanner -/

/-- C7 (amended): the single-file scanner reports a `ScanTotals` with inode
count fixed at 1, and for the same resolved block size, allocated-block
count and logical size its slack equals the volume scanner's per-inode
slack ONLY modulo `2^32`: `process_inode` truncates `calc_slack` to C
`unsigned`, while `scan_file` keeps the full `size_t` value; the two agree
exactly whenever the slack is below `2^32`. -/
theorem single_file_consistency (bs : Nat) (resolve : Nat → Nat → Option String)
    (junk : String) (inode : Inode) (dir ino : Nat) (verbose : Bool) :
    (scan_file_totals bs inode).n_inodes = 1
    ∧ (process_inode bs resolve junk inode dir ino verbose).1
        = (scan_file_totals bs inode).total_slack % U32
    ∧ ((scan_file_totals bs inode).total_slack < U32 →
        (process_inode bs resolve junk inode dir ino verbose).1
          = (scan_file_totals bs inode).total_slack) := by
  refine ⟨rfl, process_inode_fst bs resolve junk inode dir ino verbose, fun h => ?_⟩
  rw [process_inode_fst bs resolve junk inode dir ino verbose]
  exact Nat.mod_eq_of_lt h

/-- Witness for C7's amended statement at the spec's example inode
(block size 4096, 1 block, 100 bytes): both scanners compute slack 3996. -/
theorem single_file_consistency_witness :
    ((scan_file_totals 4096 ⟨false, 100, 1⟩).n_inodes = 1
      ∧ (process_inode 4096 noPath "" ⟨false, 100, 1⟩ 0 11 false).1
          = (scan_file_totals 4096 ⟨false, 100, 1⟩).total_slack % U32)
    ∧ ((scan_file_totals 4096 ⟨false, 100, 1⟩).total_slack < U32
      ∧ (process_inode 4096 noPath "" ⟨false, 100, 1⟩ 0 11 false).1
          = (scan_file_totals 4096 ⟨false, 100, 1⟩).total_slack) :=
  ⟨⟨(single_file_consistency 4096 noPath "" ⟨false, 100, 1⟩ 0 11 false).1,
    (single_file_consistency 4096 noPath "" ⟨false, 100, 1⟩ 0 11 false).2.1⟩,
   by decide,
   (single_file_consistency 4096 noPath "" ⟨false, 100, 1⟩ 0 11 false).2.2 (by decide)⟩

/-- Counterexample to C7 as stated: an inode with 1048577 allocated blocks
of size 4096 and logical size 0 has slack `2^32 + 4096`; the volume
scanner's per-inode value is the truncated 4096 while the single-file
scanner reports the full `2^32 + 4096`. -/
theorem single_vs_volume_slack_cex :
    ¬ ((process_inode 4096 noPath "" ⟨false, 0, 1048577⟩ 0 11 false).1
        = (scan_file_totals 4096 ⟨false, 0, 1048577⟩).total_slack) := by
  decide

/-! ## C8: release of the cursor and the filesystem handle -/

/-- C8 (amended): on every volume-scan run whose open succeeded — whether
the loop ends by sentinel, driver error, or trace exhaustion — the cursor
and the filesystem handle are each released exactly once, as the final two
driver calls, so no driver call follows the release; the single-file
scanner releases the handle (exactly once, last) on its normal path, but on
its inode-open failure path it exits WITHOUT releasing the handle. -/
theorem resource_release (bs : Nat) (resolve : Nat → Nat → Option String)
    (junk : String) (verbose : Bool) (dir0 : Nat) (trace : List FetchStep)
    (e : Nat) :
    ((scan_device_run bs resolve junk verbose 0 dir0 trace).calls
        = ([DriverCall.openVolume, DriverCall.openScan]
            ++ List.replicate (scan_device_loop bs resolve junk verbose dir0 trace).fetches
                DriverCall.nextInode)
          ++ [DriverCall.closeScan, DriverCall.closeVolume])
    ∧ ((scan_device_run bs resolve junk verbose 0 dir0 trace).calls.count
          DriverCall.closeScan = 1
      ∧ (scan_device_run bs resolve junk verbose 0 dir0 trace).calls.count
          DriverCall.closeVolume = 1)
    ∧ (scan_file_calls true 0 0
        = [DriverCall.openVolume, DriverCall.fileOpen, DriverCall.closeVolume])
    ∧ (scan_file_calls true 0 (e + 1)
        = [DriverCall.openVolume, DriverCall.fileOpen]) := by
  have hcalls : (scan_device_run bs resolve junk verbose 0 dir0 trace).calls
      = ([DriverCall.openVolume, DriverCall.openScan]
          ++ List.replicate (scan_device_loop bs resolve junk verbose dir0 trace).fetches
              DriverCall.nextInode)
        ++ [DriverCall.closeScan, DriverCall.closeVolume] := by
    simp [scan_device_run]
  have hrep1 : (List.replicate (scan_device_loop bs resolve junk verbose dir0 trace).fetches
      DriverCall.nextInode).count DriverCall.closeScan = 0 :=
    List.count_eq_zero.mpr (by simp [List.mem_replicate])
  have hrep2 : (List.replicate (scan_device_loop bs resolve junk verbose dir0 trace).fetches
      DriverCall.nextInode).count DriverCall.closeVolume = 0 :=
    List.count_eq_zero.mpr (by simp [List.mem_replicate])
  refine ⟨hcalls, ⟨?_, ?_⟩, by decide, by simp [scan_file_calls]⟩
  · rw [hcalls, List.count_append, List.count_append, hrep1]
    decide
  · rw [hcalls, List.count_append, List.count_append, hrep2]
    decide

/-- Counterexample to C8 as stated: when `ext2fs_file_open` fails (here
with error 5) after a successful `ext2fs_open`, `scan_file` exits without
ever calling `ext2fs_close`: the handle is released zero times, not exactly
once. -/
theorem scan_file_leak_cex :
    scan_file_calls true 0 5 = [DriverCall.openVolume, DriverCall.fileOpen]
    ∧ ¬ (DriverCall.closeVolume ∈ scan_file_calls true 0 5) := by
  decide

/-! ## C9: path-resolution failure is non-fatal, but the path is not omitted -/

/-- C9: the outcome of the driver's id-to-path lookup (and even the verbose
flag and the stale buffer) has no effect on the totals, the fetch count or
the loop's exit condition — a resolution failure aborts nothing and leaves
every aggregate unchanged.  However, on a failed lookup the per-inode
output does NOT omit the path: `process_inode` discards the lookup's error
code and prints the `name` buffer's stale content (here the string
literally left in the buffer). -/
theorem path_failure_nonfatal (bs : Nat) (res1 res2 : Nat → Nat → Option String)
    (j1 j2 : String) (v1 v2 : Bool) (trace : List FetchStep) (dir : Nat)
    (t : ScanTotals) :
    ((scan_loop bs res1 j1 v1 trace dir t).totals
        = (scan_loop bs res2 j2 v2 trace dir t).totals)
    ∧ ((scan_loop bs res1 j1 v1 trace dir t).fetches
        = (scan_loop bs res2 j2 v2 trace dir t).fetches)
    ∧ ((scan_loop bs res1 j1 v1 trace dir t).exit
        = (scan_loop bs res2 j2 v2 trace dir t).exit)
    ∧ (process_inode 4096 noPath "stale-buffer" ⟨false, 100, 1⟩ 7 11 true
        = (3996, some "stale-buffer")) := by
  obtain ⟨ha, _, hc, hd⟩ := scan_loop_core_indep bs res1 res2 j1 j2 v1 v2 trace dir t
  exact ⟨ha, hc, hd, by decide⟩

/-! ## C10: per-inode slack contributions are truncated modulo 2^32 -/

/-- C10 (confirmed): every record's slack contribution is the calculator's
result reduced modulo `2^32` (`process_inode` returns C `unsigned`), and
whenever some enumerated inode's true slack is at least `2^32`, the
accumulated total slack differs from the sum of the calculator's exact
results. -/
theorem slack_contributions_truncated (bs : Nat)
    (resolve : Nat → Nat → Option String) (junk : String) (verbose : Bool)
    (dir0 : Nat) (trace : List FetchStep) :
    (∀ r ∈ (scan_device_loop bs resolve junk verbose dir0 trace).records,
        r.slack = calc_slack bs r.blocks r.size % U32)
    ∧ ((∃ r ∈ (scan_device_loop bs resolve junk verbose dir0 trace).records,
          U32 ≤ calc_slack bs r.blocks r.size) →
        (scan_device_loop bs resolve junk verbose dir0 trace).totals.total_slack
          ≠ ((scan_device_loop bs resolve junk verbose dir0 trace).records.map
              (fun r => calc_slack bs r.blocks r.size)).sum) := by
  have hrec := scan_loop_record_slack bs resolve junk verbose trace dir0 zeroTotals
  refine ⟨hrec, fun hex => ?_⟩
  have hzero : zeroTotals.Reduced := by
    refine ⟨?_, ?_, ?_, ?_⟩ <;> simp [zeroTotals, U64]
  have h1 := scan_loop_totals_eq_fold bs resolve junk verbose trace dir0 zeroTotals
  have h2 := fold_records_sum
    (scan_device_loop bs resolve junk verbose dir0 trace).records zeroTotals hzero
  have h3 : (scan_device_loop bs resolve junk verbose dir0 trace).totals.total_slack
      = ((scan_device_loop bs resolve junk verbose dir0 trace).records.map
          SlackRecord.slack).sum % U64 := by
    rw [show (scan_device_loop bs resolve junk verbose dir0 trace).totals
          = fold_records (scan_device_loop bs resolve junk verbose dir0 trace).records
              zeroTotals from h1, h2]
    simp [zeroTotals]
  have h4 : (scan_device_loop bs resolve junk verbose dir0 trace).records.map
        SlackRecord.slack
      = (scan_device_loop bs resolve junk verbose dir0 trace).records.map
          (fun r => calc_slack bs r.blocks r.size % U32) :=
    List.map_congr_left hrec
  have h5 : ((scan_device_loop bs resolve junk verbose dir0 trace).records.map
        (fun r => calc_slack bs r.blocks r.size % U32)).sum
      < ((scan_device_loop bs resolve junk verbose dir0 trace).records.map
          (fun r => calc_slack bs r.blocks r.size)).sum :=
    sum_map_mod_lt _ _ hex
  have h6 : (scan_device_loop bs resolve junk verbose dir0 trace).totals.total_slack
      ≤ ((scan_device_loop bs resolve junk verbose dir0 trace).records.map
          (fun r => calc_slack bs r.blocks r.size % U32)).sum := by
    rw [h3, h4]
    exact Nat.mod_le _ _
  omega

/-- Witness for C10: one inode with 1048577 blocks of size 4096 and
logical size 0 has true slack `2^32 + 4096 = 4294971392`; the accumulated
total slack is the truncated 4096, which differs from the exact sum. -/
theorem slack_contributions_truncated_witness :
    (∃ r ∈ (scan_device_loop 4096 noPath "" false 0
        [⟨0, 11, ⟨false, 0, 1048577⟩⟩, ⟨0, 0, ⟨false, 0, 0⟩⟩]).records,
      U32 ≤ calc_slack 4096 r.blocks r.size)
    ∧ (scan_device_loop 4096 noPath "" false 0
        [⟨0, 11, ⟨false, 0, 1048577⟩⟩, ⟨0, 0, ⟨false, 0, 0⟩⟩]).totals.total_slack
      ≠ ((scan_device_loop 4096 noPath "" false 0
          [⟨0, 11, ⟨false, 0, 1048577⟩⟩, ⟨0, 0, ⟨false, 0, 0⟩⟩]).records.map
            (fun r => calc_slack 4096 r.blocks r.size)).sum :=
  ⟨by decide,
   (slack_contributions_truncated 4096 noPath "" false 0
      [⟨0, 11, ⟨false, 0, 1048577⟩⟩, ⟨0, 0, ⟨false, 0, 0⟩⟩]).2 (by decide)⟩

end Slackscan
